import Mathlib

/-!
Shallow embedding of the printix Go library core: the webhook
signature-validation / replay-protection subsystem (webhook.go and its
discrete-event revision) and the OAuth token lifecycle manager
(client authenticate).  Machine integers are modelled as Nat with explicit
reduction modulo 2 ^ 64 where the Go code relies on 64-bit wrap-around.
-/

/-! Bytes of a Go string: Go `[]byte(s)` yields the UTF-8 encoding. -/

/-- UTF-8 encoding of a single character, as Go produces for `[]byte(string)`. -/
def charUtf8Bytes (c : Char) : List Nat :=
  let v := c.toNat
  if v < 0x80 then [v]
  else if v < 0x800 then [0xC0 ||| (v >>> 6), 0x80 ||| (v &&& 0x3F)]
  else if v < 0x10000 then
    [0xE0 ||| (v >>> 12), 0x80 ||| ((v >>> 6) &&& 0x3F), 0x80 ||| (v &&& 0x3F)]
  else
    [0xF0 ||| (v >>> 18), 0x80 ||| ((v >>> 12) &&& 0x3F),
     0x80 ||| ((v >>> 6) &&& 0x3F), 0x80 ||| (v &&& 0x3F)]

/-- Byte sequence of a Go string (`[]byte(s)`). -/
def strBytes (s : String) : List Nat := s.data.flatMap charUtf8Bytes

/-! Model of Go `strconv.ParseInt(s, 10, 64)`: optional sign, one or more
decimal digits, result within the signed 64-bit range; `none` on any error. -/

/-- Go `strconv.ParseInt(s, 10, 64)`, with `none` for every error case. -/
def goParseInt64 (s : String) : Option Int :=
  match s.data with
  | [] => none
  | c0 :: rest =>
    let signDigits :=
      if c0 = '-' then (true, rest)
      else if c0 = '+' then (false, rest)
      else (false, c0 :: rest)
    let neg := signDigits.1
    let digits := signDigits.2
    if digits = [] then none
    else if digits.all (fun c => decide ('0' ≤ c ∧ c ≤ '9')) then
      let n : Nat := digits.foldl (fun acc c => acc * 10 + (c.toNat - 48)) 0
      let val : Int := if neg then -(n : Int) else (n : Int)
      if -(2 ^ 63) ≤ val ∧ val ≤ 2 ^ 63 - 1 then some val else none
    else none

/-- Go `strings.Contains s substr`, byte-based: the bytes of `substr` occur
contiguously inside the bytes of `s`. -/
def goStringsContains (s substr : String) : Bool :=
  decide (strBytes substr <:+: strBytes s)

/-! SHA-512 (FIPS 180-4), the hash underlying `crypto/sha512`, over byte
lists, with 64-bit words as Nat reduced modulo `2 ^ 64`. -/

/-- Modulus for 64-bit words. -/
def w64 : Nat := 2 ^ 64

/-- 64-bit wrap-around addition. -/
def add64 (a b : Nat) : Nat := (a + b) % w64

/-- Rotate a 64-bit word right by `n`. -/
def rotr64 (n x : Nat) : Nat := ((x >>> n) ||| (x <<< (64 - n))) % w64

/-- Bitwise complement of a 64-bit word. -/
def not64 (x : Nat) : Nat := x ^^^ (w64 - 1)

/-- SHA-512 choice function. -/
def shaCh (e f g : Nat) : Nat := (e &&& f) ^^^ (not64 e &&& g)

/-- SHA-512 majority function. -/
def shaMaj (a b c : Nat) : Nat := (a &&& b) ^^^ (a &&& c) ^^^ (b &&& c)

/-- SHA-512 big sigma 0. -/
def bigSigma0 (x : Nat) : Nat := rotr64 28 x ^^^ rotr64 34 x ^^^ rotr64 39 x

/-- SHA-512 big sigma 1. -/
def bigSigma1 (x : Nat) : Nat := rotr64 14 x ^^^ rotr64 18 x ^^^ rotr64 41 x

/-- SHA-512 small sigma 0. -/
def smallSigma0 (x : Nat) : Nat := rotr64 1 x ^^^ rotr64 8 x ^^^ (x >>> 7)

/-- SHA-512 small sigma 1. -/
def smallSigma1 (x : Nat) : Nat := rotr64 19 x ^^^ rotr64 61 x ^^^ (x >>> 6)

/-- SHA-512 round constants. -/
def K512 : List Nat :=
  [0x428a2f98d728ae22, 0x7137449123ef65cd, 0xb5c0fbcfec4d3b2f, 0xe9b5dba58189dbbc] ++
  [0x3956c25bf348b538, 0x59f111f1b605d019, 0x923f82a4af194f9b, 0xab1c5ed5da6d8118] ++
  [0xd807aa98a3030242, 0x12835b0145706fbe, 0x243185be4ee4b28c, 0x550c7dc3d5ffb4e2] ++
  [0x72be5d74f27b896f, 0x80deb1fe3b1696b1, 0x9bdc06a725c71235, 0xc19bf174cf692694] ++
  [0xe49b69c19ef14ad2, 0xefbe4786384f25e3, 0x0fc19dc68b8cd5b5, 0x240ca1cc77ac9c65] ++
  [0x2de92c6f592b0275, 0x4a7484aa6ea6e483, 0x5cb0a9dcbd41fbd4, 0x76f988da831153b5] ++
  [0x983e5152ee66dfab, 0xa831c66d2db43210, 0xb00327c898fb213f, 0xbf597fc7beef0ee4] ++
  [0xc6e00bf33da88fc2, 0xd5a79147930aa725, 0x06ca6351e003826f, 0x142929670a0e6e70] ++
  [0x27b70a8546d22ffc, 0x2e1b21385c26c926, 0x4d2c6dfc5ac42aed, 0x53380d139d95b3df] ++
  [0x650a73548baf63de, 0x766a0abb3c77b2a8, 0x81c2c92e47edaee6, 0x92722c851482353b] ++
  [0xa2bfe8a14cf10364, 0xa81a664bbc423001, 0xc24b8b70d0f89791, 0xc76c51a30654be30] ++
  [0xd192e819d6ef5218, 0xd69906245565a910, 0xf40e35855771202a, 0x106aa07032bbd1b8] ++
  [0x19a4c116b8d2d0c8, 0x1e376c085141ab53, 0x2748774cdf8eeb99, 0x34b0bcb5e19b48a8] ++
  [0x391c0cb3c5c95a63, 0x4ed8aa4ae3418acb, 0x5b9cca4f7763e373, 0x682e6ff3d6b2b8a3] ++
  [0x748f82ee5defb2fc, 0x78a5636f43172f60, 0x84c87814a1f0ab72, 0x8cc702081a6439ec] ++
  [0x90befffa23631e28, 0xa4506cebde82bde9, 0xbef9a3f7b2c67915, 0xc67178f2e372532b] ++
  [0xca273eceea26619c, 0xd186b8c721c0c207, 0xeada7dd6cde0eb1e, 0xf57d4f7fee6ed178] ++
  [0x06f067aa72176fba, 0x0a637dc5a2c898a6, 0x113f9804bef90dae, 0x1b710b35131c471b] ++
  [0x28db77f523047d84, 0x32caab7b40c72493, 0x3c9ebe0a15c9bebc, 0x431d67c49c100d4c] ++
  [0x4cc5d4becb3e42b6, 0x597f299cfc657e2a, 0x5fcb6fab3ad6faec, 0x6c44198c4a475817]

/-- The eight 64-bit working variables of SHA-512. -/
structure Sha512State where
  a : Nat
  b : Nat
  c : Nat
  d : Nat
  e : Nat
  f : Nat
  g : Nat
  h : Nat

/-- SHA-512 initial hash value. -/
def sha512Init : Sha512State :=
  ⟨0x6a09e667f3bcc908, 0xbb67ae8584caa73b, 0x3c6ef372fe94f82b, 0xa54ff53a5f1d36f1,
   0x510e527fade682d1, 0x9b05688c2b3e6c1f, 0x1f83d9abfb41bd6b, 0x5be0cd19137e2179⟩

/-- SHA-512 message schedule: expand 16 words to 80. -/
def msgSchedule (m : List Nat) : List Nat :=
  (List.range 80).foldl (fun ws t =>
    if t < 16 then ws ++ [m.getD t 0]
    else ws ++ [add64 (add64 (smallSigma1 (ws.getD (t - 2) 0)) (ws.getD (t - 7) 0))
                      (add64 (smallSigma0 (ws.getD (t - 15) 0)) (ws.getD (t - 16) 0))]) []

/-- One SHA-512 round. -/
def sha512Round (ws : List Nat) (s : Sha512State) (t : Nat) : Sha512State :=
  let T1 := add64 s.h (add64 (bigSigma1 s.e) (add64 (shaCh s.e s.f s.g)
              (add64 (K512.getD t 0) (ws.getD t 0))))
  let T2 := add64 (bigSigma0 s.a) (shaMaj s.a s.b s.c)
  ⟨add64 T1 T2, s.a, s.b, s.c, add64 s.d T1, s.e, s.f, s.g⟩

/-- SHA-512 compression of one 16-word block. -/
def sha512Compress (s : Sha512State) (block : List Nat) : Sha512State :=
  let ws := msgSchedule block
  let r := (List.range 80).foldl (sha512Round ws) s
  ⟨add64 s.a r.a, add64 s.b r.b, add64 s.c r.c, add64 s.d r.d,
   add64 s.e r.e, add64 s.f r.f, add64 s.g r.g, add64 s.h r.h⟩

/-- Big-endian byte decomposition of `n` into `k` bytes. -/
def bytesBE (k n : Nat) : List Nat :=
  (List.range k).map (fun i => (n >>> (8 * (k - 1 - i))) % 256)

/-- SHA-512 padding: append 0x80, zeros, and the 128-bit bit length. -/
def sha512Pad (msg : List Nat) : List Nat :=
  let len := msg.length
  let zeros := (128 - (len + 17) % 128) % 128
  msg ++ [0x80] ++ List.replicate zeros 0 ++ bytesBE 16 (len * 8)

/-- Split a byte list into 128-byte chunks (fuel-driven recursion). -/
def chunks128 : Nat → List Nat → List (List Nat)
  | 0, _ => []
  | _, [] => []
  | fuel + 1, l => l.take 128 :: chunks128 fuel (l.drop 128)

/-- The 16 big-endian 64-bit words of a 128-byte block. -/
def wordsOfBlock (block : List Nat) : List Nat :=
  (List.range 16).map (fun j =>
    ((block.drop (8 * j)).take 8).foldl (fun acc b => acc * 256 + b) 0)

/-- The 64 digest bytes of a SHA-512 state. -/
def sha512StateBytes (s : Sha512State) : List Nat :=
  bytesBE 8 s.a ++ bytesBE 8 s.b ++ bytesBE 8 s.c ++ bytesBE 8 s.d ++
  bytesBE 8 s.e ++ bytesBE 8 s.f ++ bytesBE 8 s.g ++ bytesBE 8 s.h

/-- SHA-512 digest (64 bytes) of a byte-list message. -/
def sha512 (msg : List Nat) : List Nat :=
  let padded := sha512Pad msg
  let blocks := (chunks128 padded.length padded).map wordsOfBlock
  sha512StateBytes (blocks.foldl sha512Compress sha512Init)

/-- HMAC-SHA512 (RFC 2104 with SHA-512, block size 128), as built by Go
`hmac.New(sha512.New, key)`. -/
def hmacSha512 (key msg : List Nat) : List Nat :=
  let k0 := if key.length > 128 then sha512 key else key
  let kp := k0 ++ List.replicate (128 - k0.length) 0
  let ipadKey := kp.map (fun b => b ^^^ 0x36)
  let opadKey := kp.map (fun b => b ^^^ 0x5c)
  sha512 (opadKey ++ sha512 (ipadKey ++ msg))

/-- Lowercase hex digit for a value below 16 (Go `encoding/hex` alphabet). -/
def hexDigitChar (n : Nat) : Char :=
  if n < 10 then Char.ofNat (48 + n) else Char.ofNat (87 + n)

/-- Go `hex.EncodeToString`: lowercase hex, two digits per byte. -/
def hexEncode (bs : List Nat) : String :=
  String.mk (bs.flatMap (fun b => [hexDigitChar (b / 16), hexDigitChar (b % 16)]))

/-- Go `crypto/subtle.ConstantTimeCompare`, used by `hmac.Equal`: false on a
length mismatch, otherwise the or-accumulation of bytewise xors must be 0. -/
def constantTimeCompare (x y : List Nat) : Bool :=
  if x.length = y.length then
    ((List.zipWith (fun a b => a ^^^ b) x y).foldl (fun acc v => acc ||| v) 0) == 0
  else false

/-! Webhook validator (webhook.go). -/

/-- The five validation failure conditions of `ValidateRequest`, in the order
the Go code can produce them: "missing timestamp header", "invalid timestamp",
"timestamp outside acceptable window", "missing signature header",
"invalid signature". -/
inductive ValidationError where
  | missingTimestamp
  | invalidTimestamp
  | staleRequest
  | missingSignature
  | invalidSignature
deriving DecidableEq, Repr

/-- The request body stream (`r.Body`): the bytes still available to a reader.
`io.ReadAll` consumes them; `io.NopCloser(bytes.NewReader(b))` is a fresh
stream over `b`. -/
structure BodyStream where
  remaining : String
deriving DecidableEq, Repr

/-- Go `io.ReadAll` on a body stream: yields all remaining bytes and the
exhausted stream. -/
def readAll (b : BodyStream) : String × BodyStream := (b.remaining, ⟨""⟩)

/-- An inbound webhook HTTP request, reduced to the parts `ValidateRequest`
reads: the two headers (Go `Header.Get` yields `""` when a header is absent)
and the body stream. -/
structure Request where
  timestampHeader : String
  signatureHeader : String
  body : BodyStream
deriving DecidableEq, Repr

/-- WebhookValidator validates incoming webhook requests.  The timestamp
window is kept in seconds. -/
structure WebhookValidator where
  sharedSecret : String
  oldSharedSecret : String
  timestampWindow : Int
deriving DecidableEq, Repr

/-- NewWebhookValidator: active secret as given, old secret at its zero value
`""`, window fixed at 15 minutes. -/
def NewWebhookValidator (sharedSecret : String) : WebhookValidator :=
  { sharedSecret := sharedSecret, oldSharedSecret := "", timestampWindow := 15 * 60 }

/-- SetOldSecret sets the old shared secret for key rotation. -/
def SetOldSecret (v : WebhookValidator) (oldSecret : String) : WebhookValidator :=
  { v with oldSharedSecret := oldSecret }

/-- The replay-guard test of `ValidateRequest`:
`time.Since(requestTime).Abs() > v.timestampWindow`, in seconds. -/
def timestampOutsideWindow (window now ts : Int) : Bool :=
  decide (window < |now - ts|)

/-- verifySignature verifies the HMAC-SHA512 signature (the Go receiver is
unused by the method body). -/
def verifySignature (payload signature secret : String) : Bool :=
  constantTimeCompare (strBytes signature)
    (strBytes (hexEncode (hmacSha512 (strBytes secret) (strBytes payload))))

/-- ValidateRequest validates an incoming webhook request.  Stateful Go code
is modelled by explicit state passing: the returned validator and request are
the values after the call (the Go method never writes to the validator and
re-seats the body stream over the bytes it read). -/
def ValidateRequest (v : WebhookValidator) (r : Request) (now : Int) :
    Except ValidationError Unit × WebhookValidator × Request :=
  let timestampStr := r.timestampHeader
  if timestampStr = "" then (Except.error ValidationError.missingTimestamp, v, r)
  else
    match goParseInt64 timestampStr with
    | none => (Except.error ValidationError.invalidTimestamp, v, r)
    | some timestamp =>
      if timestampOutsideWindow v.timestampWindow now timestamp then
        (Except.error ValidationError.staleRequest, v, r)
      else
        let body := (readAll r.body).1
        let r2 : Request := { r with body := BodyStream.mk body }
        let signature := r2.signatureHeader
        if signature = "" then
          (Except.error ValidationError.missingSignature, v, r2)
        else
          let payload := timestampStr ++ "." ++ body
          if verifySignature payload signature v.sharedSecret then
            (Except.ok (), v, r2)
          else if v.oldSharedSecret ≠ "" ∧ verifySignature payload signature v.oldSharedSecret = true then
            (Except.ok (), v, r2)
          else
            (Except.error ValidationError.invalidSignature, v, r2)

/-- WebhookEvent of the batch payload variant (webhook.go). -/
structure WebhookEvent where
  name : String
  href : String
  time : Float

/-- WebhookJobStatusChange represents a job status change event. -/
structure WebhookJobStatusChange where
  jobId : String
  printerId : String
  status : String
  message : String
deriving DecidableEq, Repr

/-- IsUserCreateEvent checks if the event is a user creation event. -/
def IsUserCreateEvent (e : WebhookEvent) : Bool :=
  e.name == "RESOURCE.TENANT_USER.CREATE"

/-- IsJobStatusChangeEvent checks if the event is a job status change event. -/
def IsJobStatusChangeEvent (e : WebhookEvent) : Bool :=
  goStringsContains e.name "JOB" && goStringsContains e.name "STATUS"

namespace Discrete

/-- WebhookEvent of the discrete variant: id, type, RFC3339 timestamp
(modelled as epoch seconds), and a `json.RawMessage` payload modelled by its
decode result as a `WebhookJobStatusChange` (`none` when `json.Unmarshal`
into that shape fails). -/
structure WebhookEvent where
  id : String
  type : String
  timestamp : Int
  data : Option WebhookJobStatusChange
deriving DecidableEq, Repr

/-- The two failure conditions of `ParseJobStatusChange`: "incorrect event
type: %s" and "parsing job status change: %w". -/
inductive ParseError where
  | unexpectedEventType (t : String)
  | malformedEventData
deriving DecidableEq, Repr

/-- ParseJobStatusChange parses job status change data from a discrete
webhook event. -/
def ParseJobStatusChange (event : WebhookEvent) :
    Except ParseError WebhookJobStatusChange :=
  if event.type ≠ "job.status.changed" then
    Except.error (ParseError.unexpectedEventType event.type)
  else
    match event.data with
    | none => Except.error ParseError.malformedEventData
    | some d => Except.ok d

end Discrete

/-! OAuth client (client file): token lifecycle manager. -/

/-- Source constant: nominal token life in seconds. -/
def tokenExpirySeconds : Int := 3599

/-- Source constant: renew 10 minutes before expiry. -/
def tokenRenewalBuffer : Int := 600

/-- The client state that `authenticate` reads and writes, with time as epoch
seconds. -/
structure Client where
  clientID : String
  clientSecret : String
  authURL : String
  accessToken : String
  tokenExpiry : Int
deriving DecidableEq, Repr

/-- The decoded body of a successful token-endpoint response. -/
structure AuthResponse where
  accessToken : String
  expiresIn : Int
  tokenType : String
deriving DecidableEq, Repr

/-- Outcome of the HTTP round trip to the token endpoint, supplied to
`authenticate` as an oracle: a transport failure, or a status code with the
raw body and the body's decode result as an `AuthResponse`. -/
inductive AuthHTTPResult where
  | transportError (msg : String)
  | response (status : Nat) (body : String) (decoded : Option AuthResponse)
deriving DecidableEq, Repr

/-- The failure cases of `authenticate`: "executing auth request",
"authentication failed with status %d: %s", "decoding auth response". -/
inductive AuthError where
  | executingRequest (msg : String)
  | authenticationFailed (status : Nat) (body : String)
  | decodingResponse
deriving DecidableEq, Repr

/-- authenticate gets or refreshes the OAuth access token.  Explicit state
passing: returns the error-or-unit result, the client state after the call,
and whether a token request was actually sent (`false` when the cached token
was reused). -/
def authenticate (c : Client) (now : Int) (http : AuthHTTPResult) :
    Except AuthError Unit × Client × Bool :=
  if c.accessToken ≠ "" ∧ now < c.tokenExpiry - tokenRenewalBuffer then
    (Except.ok (), c, false)
  else
    match http with
    | AuthHTTPResult.transportError msg =>
      (Except.error (AuthError.executingRequest msg), c, true)
    | AuthHTTPResult.response status body decoded =>
      if status ≠ 200 then
        (Except.error (AuthError.authenticationFailed status body), c, true)
      else
        match decoded with
        | none => (Except.error AuthError.decodingResponse, c, true)
        | some a =>
          (Except.ok (),
           { c with accessToken := a.accessToken, tokenExpiry := now + a.expiresIn },
           true)

/-! Helper lemmas about the embedded primitives. -/

/-- Zipping a list with itself under xor yields zeros. -/
lemma zipWith_xor_self (x : List Nat) :
    List.zipWith (fun a b => a ^^^ b) x x = List.replicate x.length 0 := by
  induction x with
  | nil => rfl
  | cons a t ih => simp [List.zipWith_cons_cons, Nat.xor_self, ih, List.replicate_succ]

/-- Or-accumulating zeros leaves the accumulator at zero. -/
lemma foldl_or_replicate_zero (n : Nat) :
    (List.replicate n 0).foldl (fun acc v => acc ||| v) 0 = 0 := by
  induction n with
  | zero => rfl
  | succ m ih => simpa [List.replicate_succ] using ih

/-- The constant-time comparison is reflexive. -/
lemma constantTimeCompare_self (x : List Nat) : constantTimeCompare x x = true := by
  simp [constantTimeCompare, zipWith_xor_self, foldl_or_replicate_zero]

/-- A successful constant-time comparison forces equal lengths. -/
lemma constantTimeCompare_length {x y : List Nat}
    (h : constantTimeCompare x y = true) : x.length = y.length := by
  by_cases hl : x.length = y.length
  · exact hl
  · simp [constantTimeCompare, hl] at h

/-- `bytesBE` produces exactly `k` bytes. -/
lemma bytesBE_length (k n : Nat) : (bytesBE k n).length = k := by
  simp [bytesBE]

/-- Every entry of `bytesBE` is a byte. -/
lemma bytesBE_mem_lt (k n : Nat) : ∀ b ∈ bytesBE k n, b < 256 := by
  intro b hb
  simp only [bytesBE, List.mem_map] at hb
  obtain ⟨i, _, rfl⟩ := hb
  exact Nat.mod_lt _ (by norm_num)

/-- A SHA-512 digest has 64 bytes. -/
lemma sha512_length (m : List Nat) : (sha512 m).length = 64 := by
  simp [sha512, sha512StateBytes, bytesBE_length]

/-- Every byte of a SHA-512 digest is below 256. -/
lemma sha512_mem_lt (m : List Nat) : ∀ b ∈ sha512 m, b < 256 := by
  intro b hb
  simp only [sha512, sha512StateBytes, List.mem_append] at hb
  rcases hb with ((((((h | h) | h) | h) | h) | h) | h) | h <;>
    exact bytesBE_mem_lt _ _ _ h

/-- An HMAC-SHA512 tag has 64 bytes. -/
lemma hmacSha512_length (k m : List Nat) : (hmacSha512 k m).length = 64 :=
  sha512_length _

/-- Every byte of an HMAC-SHA512 tag is below 256. -/
lemma hmacSha512_mem_lt (k m : List Nat) : ∀ b ∈ hmacSha512 k m, b < 256 :=
  sha512_mem_lt _

/-- Flat-mapping a two-element producer doubles the length. -/
lemma length_flatMap_pair (f g : Nat → Char) (bs : List Nat) :
    (bs.flatMap (fun b => [f b, g b])).length = 2 * bs.length := by
  induction bs with
  | nil => rfl
  | cons b t ih =>
    simp only [List.flatMap_cons, List.length_append, List.length_cons, List.length_nil, ih]
    omega

/-- The character list behind `hexEncode` has two characters per byte. -/
lemma hexEncode_data_length (bs : List Nat) :
    (hexEncode bs).data.length = 2 * bs.length := by
  simp only [hexEncode]
  exact length_flatMap_pair _ _ bs

/-- Hex digits of values below 16 are ASCII. -/
lemma hexDigitChar_toNat_lt (n : Nat) (h : n < 16) : (hexDigitChar n).toNat < 128 := by
  interval_cases n <;> decide

/-- An ASCII character encodes to its own single byte. -/
lemma charUtf8Bytes_ascii (c : Char) (h : c.toNat < 128) :
    charUtf8Bytes c = [c.toNat] := by
  simp [charUtf8Bytes, h]

/-- For all-ASCII character data, UTF-8 encoding is one byte per character. -/
lemma strBytes_ascii (cs : List Char) (h : ∀ c ∈ cs, c.toNat < 128) :
    strBytes (String.mk cs) = cs.map Char.toNat := by
  simp only [strBytes]
  induction cs with
  | nil => rfl
  | cons c t ih =>
    have hc : c.toNat < 128 := h c (List.mem_cons_self c t)
    have ht : ∀ x ∈ t, x.toNat < 128 := fun x hx => h x (List.mem_cons_of_mem c hx)
    simp only [List.flatMap_cons, charUtf8Bytes_ascii c hc, List.map_cons, List.singleton_append,
      List.cons.injEq, true_and]
    exact ih ht

/-- Every character of a hex encoding of genuine bytes is ASCII. -/
lemma hexEncode_data_ascii (bs : List Nat) (h : ∀ b ∈ bs, b < 256) :
    ∀ c ∈ (hexEncode bs).data, c.toNat < 128 := by
  intro c hc
  simp only [hexEncode, List.mem_flatMap] at hc
  obtain ⟨b, hb, hcb⟩ := hc
  have hb256 := h b hb
  have hdiv : b / 16 < 16 := by omega
  have hmod : b % 16 < 16 := Nat.mod_lt _ (by norm_num)
  simp only [List.mem_cons, List.not_mem_nil, or_false] at hcb
  rcases hcb with rfl | rfl
  · exact hexDigitChar_toNat_lt _ hdiv
  · exact hexDigitChar_toNat_lt _ hmod

/-- Byte length of a hex encoding of genuine bytes: two per input byte. -/
lemma strBytes_hexEncode_length (bs : List Nat) (h : ∀ b ∈ bs, b < 256) :
    (strBytes (hexEncode bs)).length = 2 * bs.length := by
  have := strBytes_ascii (hexEncode bs).data (hexEncode_data_ascii bs h)
  calc (strBytes (hexEncode bs)).length
      = ((hexEncode bs).data.map Char.toNat).length := by
        rw [show hexEncode bs = String.mk (hexEncode bs).data from rfl] at this ⊢
        rw [this]
    _ = (hexEncode bs).data.length := List.length_map _ _
    _ = 2 * bs.length := hexEncode_data_length bs

/-- A hex-encoded HMAC tag is a 128-byte string. -/
lemma strBytes_hmacHex_length (k p : List Nat) :
    (strBytes (hexEncode (hmacSha512 k p))).length = 128 := by
  rw [strBytes_hexEncode_length _ (hmacSha512_mem_lt k p), hmacSha512_length]

/-- A hex-encoded HMAC tag is never the empty string. -/
lemma hexEncode_hmac_ne_empty (k p : List Nat) : hexEncode (hmacSha512 k p) ≠ "" := by
  intro h
  have h2 := congrArg (fun s => s.data.length) h
  simp only [hexEncode_data_length, hmacSha512_length] at h2
  simp at h2

/-- A signature accepted by `verifySignature` has the 128-byte length of a
hex-encoded HMAC-SHA512 tag. -/
lemma verifySignature_true_length {p s k : String}
    (h : verifySignature p s k = true) : (strBytes s).length = 128 := by
  have := constantTimeCompare_length h
  rwa [strBytes_hmacHex_length] at this

/-- A presented signature whose byte length is not 128 never verifies. -/
lemma verifySignature_false_of_length (p s k : String)
    (h : (strBytes s).length ≠ 128) : verifySignature p s k = false := by
  cases hv : verifySignature p s k
  · rfl
  · exact absurd (verifySignature_true_length hv) h

/-- A string that parses as an integer is nonempty. -/
lemma goParseInt64_some_ne_empty {s : String} {t : Int}
    (h : goParseInt64 s = some t) : s ≠ "" := by
  intro he
  rw [he] at h
  exact Option.noConfusion h

/-- C1: within one `ValidateRequest` call the checks run in the strict order
timestamp-header presence (missing gives `missingTimestamp`, regardless of
the signature header), integer parsing of the timestamp (`invalidTimestamp`),
replay-window check (`staleRequest`), body read, signature-header presence
(`missingSignature`), active-secret check, then previous-secret check
(`invalidSignature` when both fail). -/
theorem validateRequest_check_order (v : WebhookValidator) (r : Request) (now : Int) :
    (r.timestampHeader = "" →
      (ValidateRequest v r now).1 = Except.error ValidationError.missingTimestamp)
  ∧ (r.timestampHeader ≠ "" → goParseInt64 r.timestampHeader = none →
      (ValidateRequest v r now).1 = Except.error ValidationError.invalidTimestamp)
  ∧ (∀ ts : Int, goParseInt64 r.timestampHeader = some ts →
      timestampOutsideWindow v.timestampWindow now ts = true →
      (ValidateRequest v r now).1 = Except.error ValidationError.staleRequest)
  ∧ (∀ ts : Int, goParseInt64 r.timestampHeader = some ts →
      timestampOutsideWindow v.timestampWindow now ts = false →
      r.signatureHeader = "" →
      (ValidateRequest v r now).1 = Except.error ValidationError.missingSignature)
  ∧ (∀ ts : Int, goParseInt64 r.timestampHeader = some ts →
      timestampOutsideWindow v.timestampWindow now ts = false →
      r.signatureHeader ≠ "" →
      verifySignature (r.timestampHeader ++ "." ++ (readAll r.body).1)
        r.signatureHeader v.sharedSecret = false →
      (v.oldSharedSecret = "" ∨
        verifySignature (r.timestampHeader ++ "." ++ (readAll r.body).1)
          r.signatureHeader v.oldSharedSecret = false) →
      (ValidateRequest v r now).1 = Except.error ValidationError.invalidSignature) := by
  refine ⟨?_, ?_, ?_, ?_, ?_⟩
  · intro h
    simp [ValidateRequest, h]
  · intro h1 h2
    simp [ValidateRequest, h1, h2]
  · intro ts h1 h2
    have hne := goParseInt64_some_ne_empty h1
    simp [ValidateRequest, hne, h1, h2]
  · intro ts h1 h2 h3
    have hne := goParseInt64_some_ne_empty h1
    simp [ValidateRequest, hne, h1, h2, h3, readAll]
  · intro ts h1 h2 h3 h4 h5
    have hne := goParseInt64_some_ne_empty h1
    simp only [readAll] at h4 h5
    rcases h5 with h5 | h5 <;>
      simp [ValidateRequest, hne, h1, h2, h3, h4, h5, readAll]

/-- Witness for C1: a request whose timestamp header is missing while its
signature header holds the correct HMAC of the signed payload is still
rejected with `missingTimestamp`. -/
theorem validateRequest_check_order_witness :
    (ValidateRequest (NewWebhookValidator "k")
      ⟨"", hexEncode (hmacSha512 (strBytes "k") (strBytes ("" ++ "." ++ "x"))),
       ⟨"x"⟩⟩ 0).1 = Except.error ValidationError.missingTimestamp :=
  (validateRequest_check_order (NewWebhookValidator "k") _ 0).1 rfl

/-- C2: the replay guard of a freshly constructed validator accepts a
timestamp exactly on the closed interval from `now - 900` to `now + 900`
seconds; both boundary overshoots by one second are rejected, the inside
boundary is accepted, and the test is symmetric in past and future. -/
theorem replayGuard_window (secret : String) (now ts d : Int) :
    (timestampOutsideWindow (NewWebhookValidator secret).timestampWindow now ts = false ↔
      now - 900 ≤ ts ∧ ts ≤ now + 900)
  ∧ timestampOutsideWindow (NewWebhookValidator secret).timestampWindow now (now - 901) = true
  ∧ timestampOutsideWindow (NewWebhookValidator secret).timestampWindow now (now + 901) = true
  ∧ timestampOutsideWindow (NewWebhookValidator secret).timestampWindow now (now - 899) = false
  ∧ timestampOutsideWindow (NewWebhookValidator secret).timestampWindow now (now - d) =
      timestampOutsideWindow (NewWebhookValidator secret).timestampWindow now (now + d) := by
  have hw : (NewWebhookValidator secret).timestampWindow = 900 := by
    simp [NewWebhookValidator]
  refine ⟨?_, ?_, ?_, ?_, ?_⟩
  · rw [hw]
    simp only [timestampOutsideWindow, decide_eq_false_iff_not, not_lt, abs_le]
    omega
  · rw [hw]
    have h1 : now - (now - 901) = 901 := by ring
    simp only [timestampOutsideWindow, h1]
    decide
  · rw [hw]
    have h1 : now - (now + 901) = -901 := by ring
    simp only [timestampOutsideWindow, h1]
    decide
  · rw [hw]
    have h1 : now - (now - 899) = 899 := by ring
    simp only [timestampOutsideWindow, h1]
    decide
  · rw [hw]
    have h1 : now - (now - d) = d := by ring
    have h2 : now - (now + d) = -d := by ring
    simp only [timestampOutsideWindow, h1, h2, abs_neg]

/-- C3: signing then verifying with the same secret succeeds: the signature
produced as the lowercase hex encoding of the HMAC-SHA512 tag of a payload
always passes `verifySignature` against that payload and secret. -/
theorem verifySignature_roundtrip (P S : String) :
    verifySignature P (hexEncode (hmacSha512 (strBytes S) (strBytes P))) S = true := by
  simp only [verifySignature]
  exact constantTimeCompare_self _

/-- For a fresh, parseable timestamp and nonempty signature header,
`ValidateRequest` reduces to the two-stage signature decision over the
signed payload `timestamp ++ "." ++ body`. -/
lemma validateRequest_sig_stage (v : WebhookValidator) (ts body sig : String)
    (now t : Int)
    (h1 : goParseInt64 ts = some t)
    (h2 : timestampOutsideWindow v.timestampWindow now t = false)
    (h3 : sig ≠ "") :
    (ValidateRequest v ⟨ts, sig, ⟨body⟩⟩ now).1 =
      (if verifySignature (ts ++ "." ++ body) sig v.sharedSecret then Except.ok ()
       else if v.oldSharedSecret ≠ "" ∧
              verifySignature (ts ++ "." ++ body) sig v.oldSharedSecret = true then
         Except.ok ()
       else Except.error ValidationError.invalidSignature) := by
  have hne := goParseInt64_some_ne_empty h1
  by_cases hv1 : verifySignature (ts ++ "." ++ body) sig v.sharedSecret = true
  · simp [ValidateRequest, hne, h1, h2, h3, readAll, hv1]
  · by_cases hv2 : v.oldSharedSecret ≠ "" ∧
        verifySignature (ts ++ "." ++ body) sig v.oldSharedSecret = true
    · simp [ValidateRequest, hne, h1, h2, h3, readAll, hv1, hv2]
    · simp [ValidateRequest, hne, h1, h2, h3, readAll, hv1, hv2]

/-- C4: with active secret `B` and previous secret `A` (set by
`SetOldSecret`), a fresh well-formed request signed with either secret is
accepted; any presented signature matching neither secret — in particular one
produced with a third secret `C` — is rejected with `invalidSignature`; and
acceptance depends on at most the two configured secrets, the active one
first. -/
theorem rotation_two_secrets (A B ts body : String) (now t : Int)
    (hA : A ≠ "")
    (h1 : goParseInt64 ts = some t)
    (h2 : timestampOutsideWindow (SetOldSecret (NewWebhookValidator B) A).timestampWindow
            now t = false) :
    ((ValidateRequest (SetOldSecret (NewWebhookValidator B) A)
        ⟨ts, hexEncode (hmacSha512 (strBytes A) (strBytes (ts ++ "." ++ body))),
         ⟨body⟩⟩ now).1 = Except.ok ())
  ∧ ((ValidateRequest (SetOldSecret (NewWebhookValidator B) A)
        ⟨ts, hexEncode (hmacSha512 (strBytes B) (strBytes (ts ++ "." ++ body))),
         ⟨body⟩⟩ now).1 = Except.ok ())
  ∧ (∀ sig : String, sig ≠ "" →
      verifySignature (ts ++ "." ++ body) sig B = false →
      verifySignature (ts ++ "." ++ body) sig A = false →
      (ValidateRequest (SetOldSecret (NewWebhookValidator B) A) ⟨ts, sig, ⟨body⟩⟩ now).1 =
        Except.error ValidationError.invalidSignature)
  ∧ (∀ sig : String, sig ≠ "" →
      ((ValidateRequest (SetOldSecret (NewWebhookValidator B) A) ⟨ts, sig, ⟨body⟩⟩ now).1 =
          Except.ok () ↔
        (verifySignature (ts ++ "." ++ body) sig B = true ∨
         verifySignature (ts ++ "." ++ body) sig A = true))) := by
  refine ⟨?_, ?_, ?_, ?_⟩
  · rw [validateRequest_sig_stage _ _ _ _ _ _ h1 h2 (hexEncode_hmac_ne_empty _ _)]
    by_cases hvB : verifySignature (ts ++ "." ++ body)
        (hexEncode (hmacSha512 (strBytes A) (strBytes (ts ++ "." ++ body)))) B = true
    · simp [SetOldSecret, NewWebhookValidator, hvB]
    · simp [SetOldSecret, NewWebhookValidator, hvB, hA, verifySignature_roundtrip]
  · rw [validateRequest_sig_stage _ _ _ _ _ _ h1 h2 (hexEncode_hmac_ne_empty _ _)]
    simp [SetOldSecret, NewWebhookValidator, verifySignature_roundtrip]
  · intro sig hs hvB hvA
    rw [validateRequest_sig_stage _ _ _ _ _ _ h1 h2 hs]
    simp [SetOldSecret, NewWebhookValidator, hvB, hvA]
  · intro sig hs
    rw [validateRequest_sig_stage _ _ _ _ _ _ h1 h2 hs]
    by_cases hvB : verifySignature (ts ++ "." ++ body) sig B = true
    · simp [SetOldSecret, NewWebhookValidator, hvB]
    · by_cases hvA : verifySignature (ts ++ "." ++ body) sig A = true
      · simp [SetOldSecret, NewWebhookValidator, hvB, hvA, hA]
      · simp [SetOldSecret, NewWebhookValidator, hvB, hvA]

/-- Witness for C4 at concrete secrets and a fresh request: the rotated
validator accepts the payload signed with the previous secret and rejects a
presented signature (here `"zz"`) that matches neither secret. -/
theorem rotation_two_secrets_witness :
    ((ValidateRequest (SetOldSecret (NewWebhookValidator "bb") "aa")
        ⟨"1700000000",
         hexEncode (hmacSha512 (strBytes "aa") (strBytes ("1700000000" ++ "." ++ "x"))),
         ⟨"x"⟩⟩ 1700000000).1 = Except.ok ())
  ∧ ((ValidateRequest (SetOldSecret (NewWebhookValidator "bb") "aa")
        ⟨"1700000000", "zz", ⟨"x"⟩⟩ 1700000000).1 =
      Except.error ValidationError.invalidSignature) := by
  have h := rotation_two_secrets "aa" "bb" "1700000000" "x" 1700000000 1700000000
    (by decide) (by decide) (by decide)
  refine ⟨h.1, ?_⟩
  exact h.2.2.1 "zz" (by decide)
    (verifySignature_false_of_length _ _ _ (by decide))
    (verifySignature_false_of_length _ _ _ (by decide))

/-- C5: the HMAC input is exactly the timestamp header value, one ASCII
period, and the raw body bytes; a fresh request whose signature header is the
hex HMAC-SHA512 of that concatenation under the active secret validates. -/
theorem signedPayload_exact_concat (secret ts body : String) (now t : Int)
    (h1 : goParseInt64 ts = some t)
    (h2 : timestampOutsideWindow (NewWebhookValidator secret).timestampWindow now t = false) :
    (ValidateRequest (NewWebhookValidator secret)
        ⟨ts, hexEncode (hmacSha512 (strBytes secret) (strBytes (ts ++ "." ++ body))),
         ⟨body⟩⟩ now).1 = Except.ok () := by
  rw [validateRequest_sig_stage _ _ _ _ _ _ h1 h2 (hexEncode_hmac_ne_empty _ _)]
  simp [NewWebhookValidator, verifySignature_roundtrip]

/-- Witness for C5 at a concrete secret, timestamp, and body. -/
theorem signedPayload_exact_concat_witness :
    (ValidateRequest (NewWebhookValidator "whsec")
        ⟨"1700000000",
         hexEncode (hmacSha512 (strBytes "whsec")
           (strBytes ("1700000000" ++ "." ++ "emitted=1"))),
         ⟨"emitted=1"⟩⟩ 1700000000).1 = Except.ok () :=
  signedPayload_exact_concat "whsec" "1700000000" "emitted=1" 1700000000 1700000000
    (by decide) (by decide)

/-- C6: validation is read-only and body-preserving: `ValidateRequest`
returns the validator unchanged, leaves both headers unchanged, and the body
bytes a later reader (the event parser) obtains from the returned request are
exactly the bytes the original stream held — the bytes used for the signature
payload. -/
theorem validateRequest_frame (v : WebhookValidator) (r : Request) (now : Int) :
    (ValidateRequest v r now).2.1 = v
  ∧ (ValidateRequest v r now).2.2.timestampHeader = r.timestampHeader
  ∧ (ValidateRequest v r now).2.2.signatureHeader = r.signatureHeader
  ∧ (readAll (ValidateRequest v r now).2.2.body).1 = (readAll r.body).1 := by
  refine ⟨?_, ?_, ?_, ?_⟩
  all_goals
    simp only [ValidateRequest, readAll]
    repeat' split
    all_goals rfl

/-- C10: an empty previous-secret slot (the state after construction, equal
to the state after `SetOldSecret ""`) is never consulted: acceptance of a
well-formed fresh request is equivalent to the active-secret check alone, and
any presented signature failing the active secret — in particular one
computed with the empty-string secret — is rejected. -/
theorem emptyOldSecret_not_consulted (secret ts body sig : String) (now t : Int)
    (h1 : goParseInt64 ts = some t)
    (h2 : timestampOutsideWindow (NewWebhookValidator secret).timestampWindow now t = false)
    (h3 : sig ≠ "") :
    (SetOldSecret (NewWebhookValidator secret) "" = NewWebhookValidator secret)
  ∧ ((ValidateRequest (NewWebhookValidator secret) ⟨ts, sig, ⟨body⟩⟩ now).1 = Except.ok ()
      ↔ verifySignature (ts ++ "." ++ body) sig secret = true)
  ∧ (verifySignature (ts ++ "." ++ body) sig secret = false →
      (ValidateRequest (NewWebhookValidator secret) ⟨ts, sig, ⟨body⟩⟩ now).1 =
        Except.error ValidationError.invalidSignature) := by
  refine ⟨rfl, ?_, ?_⟩
  · rw [validateRequest_sig_stage _ _ _ _ _ _ h1 h2 h3]
    by_cases hv : verifySignature (ts ++ "." ++ body) sig secret = true
    · simp [NewWebhookValidator, hv]
    · simp [NewWebhookValidator, hv]
  · intro hv
    rw [validateRequest_sig_stage _ _ _ _ _ _ h1 h2 h3]
    simp [NewWebhookValidator, hv]

/-- Witness for C10: with only an active secret configured, a fresh request
presenting the signature `"zz"` (which the active secret does not produce) is
rejected with `invalidSignature`. -/
theorem emptyOldSecret_not_consulted_witness :
    (SetOldSecret (NewWebhookValidator "k") "" = NewWebhookValidator "k")
  ∧ ((ValidateRequest (NewWebhookValidator "k")
        ⟨"1700000000", "zz", ⟨"x"⟩⟩ 1700000000).1 =
      Except.error ValidationError.invalidSignature) := by
  have h := emptyOldSecret_not_consulted "k" "1700000000" "x" "zz" 1700000000 1700000000
    (by decide) (by decide) (by decide)
  exact ⟨h.1, h.2.2 (verifySignature_false_of_length _ _ _ (by decide))⟩

/-- When the cached token is absent or inside the renewal buffer,
`authenticate` always sends a token request. -/
lemma authenticate_sends_of_invalid (c : Client) (now : Int) (http : AuthHTTPResult)
    (hc : ¬(c.accessToken ≠ "" ∧ now < c.tokenExpiry - tokenRenewalBuffer)) :
    (authenticate c now http).2.2 = true := by
  simp only [authenticate, if_neg hc]
  cases http with
  | transportError msg => rfl
  | response status body decoded =>
    by_cases hs : status ≠ 200
    · simp [hs]
    · cases decoded <;> simp [hs]

/-- When the cached token is valid and outside the renewal buffer,
`authenticate` reuses it and changes nothing. -/
lemma authenticate_cached (c : Client) (now : Int) (http : AuthHTTPResult)
    (hc : c.accessToken ≠ "" ∧ now < c.tokenExpiry - tokenRenewalBuffer) :
    authenticate c now http = (Except.ok (), c, false) := by
  simp [authenticate, hc]

/-- C7: a call holding a cached token reuses it exactly when the current
time is strictly before the stored expiry minus the fixed 600-second renewal
buffer; otherwise it re-authenticates (sends a token request). -/
theorem tokenRenewal_buffer (c : Client) (now : Int) (http : AuthHTTPResult)
    (h : c.accessToken ≠ "") :
    ((authenticate c now http).2.2 = false ↔ now < c.tokenExpiry - 600)
  ∧ (now < c.tokenExpiry - 600 → authenticate c now http = (Except.ok (), c, false)) := by
  have hbuf : tokenRenewalBuffer = 600 := rfl
  constructor
  · constructor
    · intro hf
      by_contra hlt
      have hsent := authenticate_sends_of_invalid c now http
        (fun hand => hlt (hbuf ▸ hand.2))
      rw [hsent] at hf
      cases hf
    · intro hlt
      rw [authenticate_cached c now http ⟨h, hbuf ▸ hlt⟩]
  · intro hlt
    exact authenticate_cached c now http ⟨h, hbuf ▸ hlt⟩

/-- Witness for C7: with a token cached at expiry 3600 (obtained at time 0
with `expires_in = 3600`), a call at 2000 reuses the cache and a call at 3000
re-authenticates. -/
theorem tokenRenewal_buffer_witness :
    ((authenticate ⟨"test-id", "test-secret", "https://auth.printix.net/oauth/token",
        "test-token", 3600⟩ 2000
        (AuthHTTPResult.response 200 "" (some ⟨"new-token", 3600, "Bearer"⟩))).2.2 = false)
  ∧ ((authenticate ⟨"test-id", "test-secret", "https://auth.printix.net/oauth/token",
        "test-token", 3600⟩ 3000
        (AuthHTTPResult.response 200 "" (some ⟨"new-token", 3600, "Bearer"⟩))).2.2 = true) := by
  constructor
  · exact (tokenRenewal_buffer _ 2000 _ (by decide)).1.mpr (by decide)
  · have h := (tokenRenewal_buffer ⟨"test-id", "test-secret",
      "https://auth.printix.net/oauth/token", "test-token", 3600⟩ 3000
      (AuthHTTPResult.response 200 "" (some ⟨"new-token", 3600, "Bearer"⟩)) (by decide)).1
    cases hb : (authenticate ⟨"test-id", "test-secret",
        "https://auth.printix.net/oauth/token", "test-token", 3600⟩ 3000
        (AuthHTTPResult.response 200 "" (some ⟨"new-token", 3600, "Bearer"⟩))).2.2
    · exact absurd (h.mp hb) (by decide)
    · rfl

/-- C8: with no reusable cached token, `authenticate` succeeds exactly on a
status-200 response whose body decodes, storing the parsed access token with
expiry `now + expires_in`; any non-2xx status fails with
`authenticationFailed` carrying status and body while leaving the client
state (cached token and expiry included) unchanged, and a 200 response that
fails to decode also leaves the state unchanged. -/
theorem authenticate_transition (c : Client) (now : Int) (status : Nat) (body : String)
    (dec : Option AuthResponse)
    (hc : ¬(c.accessToken ≠ "" ∧ now < c.tokenExpiry - tokenRenewalBuffer)) :
    (∀ a : AuthResponse, dec = some a → status = 200 →
      authenticate c now (AuthHTTPResult.response status body dec) =
        (Except.ok (),
         { c with accessToken := a.accessToken, tokenExpiry := now + a.expiresIn }, true))
  ∧ (status < 200 ∨ 300 ≤ status →
      authenticate c now (AuthHTTPResult.response status body dec) =
        (Except.error (AuthError.authenticationFailed status body), c, true))
  ∧ (status = 200 → dec = none →
      authenticate c now (AuthHTTPResult.response status body dec) =
        (Except.error AuthError.decodingResponse, c, true))
  ∧ ((authenticate c now (AuthHTTPResult.response status body dec)).1 = Except.ok ()
      ↔ (status = 200 ∧ dec ≠ none)) := by
  refine ⟨?_, ?_, ?_, ?_⟩
  · intro a hd hs
    simp [authenticate, hc, hs, hd]
  · intro hs
    have hne : status ≠ 200 := by omega
    simp [authenticate, hc, hne]
  · intro hs hd
    simp [authenticate, hc, hs, hd]
  · by_cases hs : status = 200
    · cases dec with
      | none => simp [authenticate, hc, hs]
      | some a => simp [authenticate, hc, hs]
    · simp [authenticate, hc, hs]

/-- Witness for C8: from an empty cache, a 200 response decoding to
`test-token` with 3600 seconds to live yields the authenticated state, and a
401 response with body `Invalid credentials` fails with that status and body
and leaves the client unchanged. -/
theorem authenticate_transition_witness :
    (authenticate ⟨"test-id", "test-secret", "u", "", 0⟩ 0
        (AuthHTTPResult.response 200 "" (some ⟨"test-token", 3600, "Bearer"⟩)) =
      (Except.ok (), ⟨"test-id", "test-secret", "u", "test-token", 0 + 3600⟩, true))
  ∧ (authenticate ⟨"test-id", "test-secret", "u", "", 0⟩ 0
        (AuthHTTPResult.response 401 "Invalid credentials" none) =
      (Except.error (AuthError.authenticationFailed 401 "Invalid credentials"),
       ⟨"test-id", "test-secret", "u", "", 0⟩, true)) := by
  constructor
  · exact (authenticate_transition ⟨"test-id", "test-secret", "u", "", 0⟩ 0 200 ""
      (some ⟨"test-token", 3600, "Bearer"⟩) (by decide)).1 ⟨"test-token", 3600, "Bearer"⟩ rfl rfl
  · exact (authenticate_transition ⟨"test-id", "test-secret", "u", "", 0⟩ 0 401
      "Invalid credentials" none (by decide)).2.1 (by decide)

/-- C9: event classification is pure string matching: a user-creation event
is recognized by exact, case-sensitive equality of the name with
`RESOURCE.TENANT_USER.CREATE`; a job-status event by the name containing
both byte substrings `JOB` and `STATUS`; and the second-stage decode
`ParseJobStatusChange` succeeds only on outer type `job.status.changed`,
failing with `unexpectedEventType` on any other type and with
`malformedEventData` when the sub-payload does not decode. -/
theorem eventClassification :
    (∀ e : WebhookEvent, IsUserCreateEvent e = true ↔
      e.name = "RESOURCE.TENANT_USER.CREATE")
  ∧ (∀ e : WebhookEvent, IsJobStatusChangeEvent e = true ↔
      (strBytes "JOB" <:+: strBytes e.name ∧ strBytes "STATUS" <:+: strBytes e.name))
  ∧ (∀ ev : Discrete.WebhookEvent, ev.type ≠ "job.status.changed" →
      Discrete.ParseJobStatusChange ev =
        Except.error (Discrete.ParseError.unexpectedEventType ev.type))
  ∧ (∀ ev : Discrete.WebhookEvent, ev.type = "job.status.changed" → ev.data = none →
      Discrete.ParseJobStatusChange ev = Except.error Discrete.ParseError.malformedEventData)
  ∧ (∀ ev : Discrete.WebhookEvent, ∀ d : WebhookJobStatusChange,
      ev.type = "job.status.changed" → ev.data = some d →
      Discrete.ParseJobStatusChange ev = Except.ok d) := by
  refine ⟨?_, ?_, ?_, ?_, ?_⟩
  · intro e
    simp [IsUserCreateEvent]
  · intro e
    simp [IsJobStatusChangeEvent, goStringsContains, Bool.and_eq_true]
  · intro ev h
    simp [Discrete.ParseJobStatusChange, h]
  · intro ev h hd
    simp [Discrete.ParseJobStatusChange, h, hd]
  · intro ev d h hd
    simp [Discrete.ParseJobStatusChange, h, hd]

/-- Witness for C9 at concrete events: the documented user-creation name
matches exactly, a name containing `JOB` and `STATUS` classifies as a
job-status event, a `printer.online` event is refused by the job-status
decoder, and a decodable `job.status.changed` event parses to its fields. -/
theorem eventClassification_witness :
    IsUserCreateEvent ⟨"RESOURCE.TENANT_USER.CREATE",
      "https://api.printix.net/users/456", 0.0⟩ = true
  ∧ (strBytes "JOB" <:+: strBytes "RESOURCE.PRINT_JOB.STATUS_CHANGE" ∧
      strBytes "STATUS" <:+: strBytes "RESOURCE.PRINT_JOB.STATUS_CHANGE")
  ∧ Discrete.ParseJobStatusChange ⟨"evt-1", "printer.online", 0, none⟩ =
      Except.error (Discrete.ParseError.unexpectedEventType "printer.online")
  ∧ Discrete.ParseJobStatusChange
      ⟨"evt-2", "job.status.changed", 0,
       some ⟨"job-123", "printer-456", "completed", ""⟩⟩ =
      Except.ok ⟨"job-123", "printer-456", "completed", ""⟩ := by
  refine ⟨?_, ?_, ?_, ?_⟩
  · exact (eventClassification.1 _).mpr rfl
  · exact (eventClassification.2.1
      ⟨"RESOURCE.PRINT_JOB.STATUS_CHANGE", "", 0.0⟩).mp (by decide)
  · exact eventClassification.2.2.1 _ (by decide)
  · exact eventClassification.2.2.2.2 _ _ rfl rfl
